import Mathlib

/-!
Shallow embedding of the bootstrap-token lifecycle logic found in
src/bootstrap/kubeadm/controllers/token.go, together with theorems about
its behaviour.

Modelling choices:
- Machine time is a natural number of seconds; DefaultTokenTTL is 15 minutes
  expressed in seconds, and the Go expression DefaultTokenTTL / 2 is exact
  Nat division (900 / 2 = 450).
- A v1.Secret Data map is an association list from field name to field value;
  data = none models a nil map (the case getToken rejects).
- RFC3339 serialization is abstracted: a field value is either an encoded
  timestamp (constructor time, which time.Parse recovers) or opaque bytes
  (constructor bytes, on which time.Parse fails).  time.Format always
  produces the former.
- The controller-runtime client is a store (secrets of the kube-system
  namespace keyed by name; the namespace is the constant
  metav1.NamespaceSystem in every call, so it is folded into the key)
  together with a log of the store calls performed, so that read-only
  behaviour is provable rather than merely visible from types.
- bootstraputil.GenerateBootstrapToken is an external random source; its
  output is passed in as an explicit draw argument, so theorems quantify
  over every possible draw.
-/

namespace KubeadmToken

/-- A value held in a secret record field.  The expiration field of a
well-formed record holds an RFC3339 timestamp, modelled by the time
constructor; anything time.Parse rejects is modelled by bytes. -/
inductive FieldVal where
  | bytes (s : String)
  | time (t : Nat)
deriving DecidableEq, Repr

/-- Association-list lookup, modelling Go map indexing and store reads. -/
def lookupKey {α : Type} : List (String × α) → String → Option α
  | [], _ => none
  | (k, v) :: rest, key => if k = key then some v else lookupKey rest key

/-- Association-list update, modelling Go map assignment and store writes. -/
def setKey {α : Type} : List (String × α) → String → α → List (String × α)
  | [], key, v => [(key, v)]
  | (k, w) :: rest, key, v =>
    if k = key then (key, v) :: rest else (k, w) :: setKey rest key v

/-- A v1.Secret as token.go uses it: metadata name plus the Data map
(data = none models a nil Data map). -/
structure Secret where
  name : String
  data : Option (List (String × FieldVal))
deriving DecidableEq, Repr

/-- The secret store contents: secrets keyed by name. -/
abbrev Store := List (String × Secret)

/-- One store call, recorded in the client log for frame reasoning. -/
inductive StoreOp where
  | getOp (key : String)
  | createOp (key : String)
  | updateOp (key : String)
deriving DecidableEq, Repr

/-- Whether a store call is a pure read. -/
def StoreOp.isRead : StoreOp → Bool
  | .getOp _ => true
  | _ => false

/-- Error taxonomy; each constructor labels one error site of token.go. -/
inductive TokenError where
  | generation      -- createToken: the generated token failed the grammar self-check
  | malformed       -- getToken: the input token text failed the grammar
  | notFound        -- store Get or Update addressed an absent key
  | corruptRecord   -- nil Data map, or unparseable expiration timestamp
  | conflict        -- store Create addressed an existing key
deriving DecidableEq, Repr

/-- The controller-runtime client: store state plus the log of calls made. -/
structure Client where
  store : Store
  log : List StoreOp
deriving DecidableEq, Repr

/-- c.Get: read a secret by key; the store is never mutated. -/
def Client.getSec (c : Client) (key : String) : Option Secret × Client :=
  (lookupKey c.store key,
   { store := c.store, log := c.log ++ [StoreOp.getOp key] })

/-- c.Create: create-if-absent store semantics; fails distinctly, leaving
the store unchanged, when the key already holds a record. -/
def Client.createSec (c : Client) (key : String) (v : Secret) :
    Except TokenError Unit × Client :=
  match lookupKey c.store key with
  | some _ =>
    (Except.error TokenError.conflict,
     { store := c.store, log := c.log ++ [StoreOp.createOp key] })
  | none =>
    (Except.ok (),
     { store := setKey c.store key v, log := c.log ++ [StoreOp.createOp key] })

/-- c.Update: update-if-present store semantics; fails distinctly, leaving
the store unchanged, when the key holds no record. -/
def Client.updateSec (c : Client) (key : String) (v : Secret) :
    Except TokenError Unit × Client :=
  match lookupKey c.store key with
  | none =>
    (Except.error TokenError.notFound,
     { store := c.store, log := c.log ++ [StoreOp.updateOp key] })
  | some _ =>
    (Except.ok (),
     { store := setKey c.store key v, log := c.log ++ [StoreOp.updateOp key] })

/-- Charset of bootstrap token ids and secrets: the a-z0-9 of
bootstrapapi.BootstrapTokenPattern. -/
def isTokenChar (c : Char) : Bool :=
  (('a' ≤ c) && (c ≤ 'z')) || (('0' ≤ c) && (c ≤ '9'))

/-- Core of BootstrapTokenRegexp.FindStringSubmatch against the anchored
pattern of six charset characters, a dot, then sixteen charset characters.
Any string matching that pattern has its only dot at index six, so taking
and dropping six characters and checking both halves is equivalent. -/
def parseTokenChars (cs : List Char) : Option (List Char × List Char) :=
  match cs.drop 6 with
  | '.' :: s =>
    if (cs.take 6).length = 6 ∧ s.length = 16 ∧
       (cs.take 6).all isTokenChar = true ∧ s.all isTokenChar = true then
      some (cs.take 6, s)
    else none
  | _ => none

/-- Token text parsing: some (id, secret) when the text matches the grammar,
none when FindStringSubmatch would not return three submatches. -/
def parseToken (t : String) : Option (String × String) :=
  match parseTokenChars t.data with
  | none => none
  | some (i, s) => some (String.mk i, String.mk s)

/-- bootstrapapi.BootstrapTokenIDKey. -/
def bootstrapTokenIDKey : String := "token-id"

/-- bootstrapapi.BootstrapTokenSecretKey. -/
def bootstrapTokenSecretKey : String := "token-secret"

/-- bootstrapapi.BootstrapTokenExpirationKey. -/
def bootstrapTokenExpirationKey : String := "expiration"

/-- bootstrapapi.BootstrapTokenUsageSigningKey. -/
def bootstrapTokenUsageSigningKey : String := "usage-bootstrap-signing"

/-- bootstrapapi.BootstrapTokenUsageAuthentication. -/
def bootstrapTokenUsageAuthentication : String := "usage-bootstrap-authentication"

/-- bootstrapapi.BootstrapTokenExtraGroupsKey. -/
def bootstrapTokenExtraGroupsKey : String := "auth-extra-groups"

/-- bootstrapapi.BootstrapTokenDescriptionKey. -/
def bootstrapTokenDescriptionKey : String := "description"

/-- bootstraputil.BootstrapTokenSecretName: the store key derived from the
token id alone. -/
def BootstrapTokenSecretName (tokenID : String) : String :=
  "bootstrap-token-" ++ tokenID

/-- DefaultTokenTTL = 15 * time.Minute, in seconds. -/
def DefaultTokenTTL : Nat := 15 * 60

/-- The secretToken record that createToken builds before writing. -/
def mkTokenSecret (tokenID tokenSecret : String) (now : Nat) : Secret :=
  { name := BootstrapTokenSecretName tokenID
  , data := some
      [ (bootstrapTokenIDKey, FieldVal.bytes tokenID)
      , (bootstrapTokenSecretKey, FieldVal.bytes tokenSecret)
      , (bootstrapTokenExpirationKey, FieldVal.time (now + DefaultTokenTTL))
      , (bootstrapTokenUsageSigningKey, FieldVal.bytes ("true"))
      , (bootstrapTokenUsageAuthentication, FieldVal.bytes ("true"))
      , (bootstrapTokenExtraGroupsKey,
         FieldVal.bytes ("system:bootstrappers:kubeadm:default-node-token"))
      , (bootstrapTokenDescriptionKey,
         FieldVal.bytes ("token generated by cluster-api-bootstrap-provider-kubeadm")) ] }

/-- createToken: self-checks the generated draw against the grammar, builds
the record with expiration now + DefaultTokenTTL, and writes it with
create-if-absent semantics; returns the full token text on success. -/
def createToken (c : Client) (draw : String) (now : Nat) :
    Except TokenError String × Client :=
  match parseToken draw with
  | none => (Except.error TokenError.generation, c)
  | some (tokenID, tokenSecret) =>
    let res := Client.createSec c (BootstrapTokenSecretName tokenID)
      (mkTokenSecret tokenID tokenSecret now)
    match res.1 with
    | Except.error e => (Except.error e, res.2)
    | Except.ok _ => (Except.ok draw, res.2)

/-- getToken: parses the token text, fetches the secret by the key derived
from the id, and rejects a fetched record whose Data map is nil. -/
def getToken (c : Client) (token : String) : Except TokenError Secret × Client :=
  match parseToken token with
  | none => (Except.error TokenError.malformed, c)
  | some (tokenID, _) =>
    let res := Client.getSec c (BootstrapTokenSecretName tokenID)
    match res.1 with
    | none => (Except.error TokenError.notFound, res.2)
    | some sec =>
      match sec.data with
      | none => (Except.error TokenError.corruptRecord, res.2)
      | some _ => (Except.ok sec, res.2)

/-- refreshToken: fetches via getToken, overwrites the expiration field with
now + DefaultTokenTTL, and writes the record back via update. -/
def refreshToken (c : Client) (token : String) (now : Nat) :
    Except TokenError Unit × Client :=
  let g := getToken c token
  match g.1 with
  | Except.error e => (Except.error e, g.2)
  | Except.ok sec =>
    let sec' : Secret :=
      { name := sec.name
      , data := sec.data.map (fun d =>
          setKey d bootstrapTokenExpirationKey
            (FieldVal.time (now + DefaultTokenTTL))) }
    Client.updateSec g.2 sec'.name sec'

/-- time.Parse of the expiration field: succeeds exactly when the field is
present and holds an encoded timestamp (a missing key reads as the empty
byte slice, which time.Parse rejects). -/
def parseExpiration (sec : Secret) : Option Nat :=
  match sec.data with
  | none => none
  | some d =>
    match lookupKey d bootstrapTokenExpirationKey with
    | some (FieldVal.time t) => some t
    | _ => none

/-- shouldRotate: fetches via getToken, parses the expiration, and reports
whether it is strictly before now + DefaultTokenTTL / 2. -/
def shouldRotate (c : Client) (token : String) (now : Nat) :
    Except TokenError Bool × Client :=
  let g := getToken c token
  match g.1 with
  | Except.error e => (Except.error e, g.2)
  | Except.ok sec =>
    match parseExpiration sec with
    | none => (Except.error TokenError.corruptRecord, g.2)
    | some t => (Except.ok (decide (t < now + DefaultTokenTTL / 2)), g.2)

/-- Store well-formedness: the metadata name of every stored secret equals
its key, as the API server guarantees for every reachable store state. -/
def storeWF (s : Store) : Bool :=
  s.all (fun kv => kv.2.name == kv.1)

/-- The empty initial client state. -/
def freshClient : Client := { store := [], log := [] }

/-- A well-formed example token text: six charset characters, a dot,
sixteen charset characters. -/
def exToken : String := "abcdef.0123456789abcdef"

/-- The id half of exToken. -/
def exID : String := "abcdef"

/-- The secret half of exToken. -/
def exSecret : String := "0123456789abcdef"

/-- A string that fails the token grammar. -/
def badTok : String := "bad"

/-- A draw from the random source that fails the grammar self-check. -/
def badDraw : String := "nota.token"

/-- Client state after creating exToken at time 0. -/
def c1ex : Client := (createToken freshClient exToken 0).2

/-- Client state after then refreshing exToken at time 10. -/
def c2ex : Client := (refreshToken c1ex exToken 10).2

/-- A record that exists, has a non-nil Data map, but lacks the
expiration field. -/
def c3secret : Secret :=
  { name := BootstrapTokenSecretName exID
  , data := some [(bootstrapTokenIDKey, FieldVal.bytes exID)] }

/-- A client whose store holds c3secret under the key derived from exID. -/
def c3client : Client :=
  { store := [(BootstrapTokenSecretName exID, c3secret)], log := [] }

theorem lookupKey_setKey_self {α : Type} (l : List (String × α)) (k : String) (v : α) :
    lookupKey (setKey l k v) k = some v := by
  induction l with
  | nil => simp [setKey, lookupKey]
  | cons hd tl ih =>
    obtain ⟨k0, w⟩ := hd
    by_cases h : k0 = k
    · simp [setKey, h, lookupKey]
    · simp [setKey, h, lookupKey, ih]

theorem lookupKey_setKey_ne {α : Type} (l : List (String × α)) (k k' : String) (v : α)
    (h : k' ≠ k) : lookupKey (setKey l k v) k' = lookupKey l k' := by
  induction l with
  | nil => simp [setKey, lookupKey, Ne.symm h]
  | cons hd tl ih =>
    obtain ⟨k0, w⟩ := hd
    by_cases hk : k0 = k
    · subst hk
      simp [setKey, lookupKey, Ne.symm h, ih]
    · simp [setKey, hk, lookupKey, ih]

theorem storeWF_lookup (s : Store) (k : String) (sec : Secret)
    (hwf : storeWF s = true) (hl : lookupKey s k = some sec) : sec.name = k := by
  induction s with
  | nil => simp [lookupKey] at hl
  | cons hd tl ih =>
    obtain ⟨k0, v⟩ := hd
    rw [storeWF, List.all_cons] at hwf
    obtain ⟨h1, h2⟩ := (Bool.and_eq_true _ _).mp hwf
    rw [lookupKey] at hl
    by_cases hk : k0 = k
    · rw [if_pos hk] at hl
      obtain rfl := Option.some.inj hl
      exact hk ▸ (beq_iff_eq.mp h1)
    · rw [if_neg hk] at hl
      exact ih h2 hl

theorem getToken_parse_none (c : Client) (tok : String)
    (h : parseToken tok = none) :
    getToken c tok = (Except.error TokenError.malformed, c) := by
  simp [getToken, h]

theorem getToken_lookup_none (c : Client) (tok tid tsec : String)
    (hp : parseToken tok = some (tid, tsec))
    (hl : lookupKey c.store (BootstrapTokenSecretName tid) = none) :
    getToken c tok =
      (Except.error TokenError.notFound,
       { store := c.store
       , log := c.log ++ [StoreOp.getOp (BootstrapTokenSecretName tid)] }) := by
  simp [getToken, hp, Client.getSec, hl]

theorem getToken_data_none (c : Client) (tok tid tsec : String) (sec : Secret)
    (hp : parseToken tok = some (tid, tsec))
    (hl : lookupKey c.store (BootstrapTokenSecretName tid) = some sec)
    (hd : sec.data = none) :
    getToken c tok =
      (Except.error TokenError.corruptRecord,
       { store := c.store
       , log := c.log ++ [StoreOp.getOp (BootstrapTokenSecretName tid)] }) := by
  simp [getToken, hp, Client.getSec, hl, hd]

theorem getToken_found (c : Client) (tok tid tsec : String) (sec : Secret)
    (d : List (String × FieldVal))
    (hp : parseToken tok = some (tid, tsec))
    (hl : lookupKey c.store (BootstrapTokenSecretName tid) = some sec)
    (hd : sec.data = some d) :
    getToken c tok =
      (Except.ok sec,
       { store := c.store
       , log := c.log ++ [StoreOp.getOp (BootstrapTokenSecretName tid)] }) := by
  simp [getToken, hp, Client.getSec, hl, hd]

theorem getToken_fst_ok (c : Client) (tok : String) (sec : Secret)
    (h : (getToken c tok).1 = Except.ok sec) :
    ∃ tid tsec d, parseToken tok = some (tid, tsec) ∧
      lookupKey c.store (BootstrapTokenSecretName tid) = some sec ∧
      sec.data = some d := by
  cases hp : parseToken tok with
  | none =>
    rw [getToken_parse_none c tok hp] at h
    simp at h
  | some p =>
    obtain ⟨tid, tsec⟩ := p
    cases hl : lookupKey c.store (BootstrapTokenSecretName tid) with
    | none =>
      rw [getToken_lookup_none c tok tid tsec hp hl] at h
      simp at h
    | some sec0 =>
      cases hd : sec0.data with
      | none =>
        rw [getToken_data_none c tok tid tsec sec0 hp hl hd] at h
        simp at h
      | some d =>
        rw [getToken_found c tok tid tsec sec0 d hp hl hd] at h
        simp at h
        exact ⟨tid, tsec, d, rfl, h ▸ hl, h ▸ hd⟩

theorem getToken_snd (c : Client) (tok : String) :
    (getToken c tok).2 = c ∨
    ∃ k, (getToken c tok).2 =
      { store := c.store, log := c.log ++ [StoreOp.getOp k] } := by
  cases hp : parseToken tok with
  | none =>
    left
    rw [getToken_parse_none c tok hp]
  | some p =>
    obtain ⟨tid, tsec⟩ := p
    right
    refine ⟨BootstrapTokenSecretName tid, ?_⟩
    cases hl : lookupKey c.store (BootstrapTokenSecretName tid) with
    | none => rw [getToken_lookup_none c tok tid tsec hp hl]
    | some sec =>
      cases hd : sec.data with
      | none => rw [getToken_data_none c tok tid tsec sec hp hl hd]
      | some d => rw [getToken_found c tok tid tsec sec d hp hl hd]

theorem getToken_snd_store (c : Client) (tok : String) :
    (getToken c tok).2.store = c.store := by
  rcases getToken_snd c tok with h | ⟨k, h⟩ <;> rw [h]

theorem shouldRotate_snd (c : Client) (tok : String) (now : Nat) :
    (shouldRotate c tok now).2 = (getToken c tok).2 := by
  simp only [shouldRotate]
  cases h : (getToken c tok).1 with
  | error e => rfl
  | ok sec =>
    cases he : parseExpiration sec with
    | none => simp [he]
    | some t => simp [he]

theorem shouldRotate_of_ok (c : Client) (tok : String) (sec : Secret)
    (e now : Nat)
    (hget : (getToken c tok).1 = Except.ok sec)
    (hexp : parseExpiration sec = some e) :
    (shouldRotate c tok now).1 =
      Except.ok (decide (e < now + DefaultTokenTTL / 2)) := by
  simp [shouldRotate, hget, hexp]

theorem shouldRotate_of_no_expiration (c : Client) (tok : String) (sec : Secret)
    (now : Nat)
    (hget : (getToken c tok).1 = Except.ok sec)
    (hexp : parseExpiration sec = none) :
    (shouldRotate c tok now).1 = Except.error TokenError.corruptRecord := by
  simp [shouldRotate, hget, hexp]

theorem createToken_parse_none (c : Client) (draw : String) (now : Nat)
    (h : parseToken draw = none) :
    createToken c draw now = (Except.error TokenError.generation, c) := by
  simp [createToken, h]

theorem createToken_conflict_eq (c : Client) (draw tid tsec : String) (now : Nat)
    (r0 : Secret)
    (hp : parseToken draw = some (tid, tsec))
    (hl : lookupKey c.store (BootstrapTokenSecretName tid) = some r0) :
    createToken c draw now =
      (Except.error TokenError.conflict,
       { store := c.store
       , log := c.log ++ [StoreOp.createOp (BootstrapTokenSecretName tid)] }) := by
  simp [createToken, hp, Client.createSec, hl]

theorem createToken_ok_eq (c : Client) (draw tid tsec : String) (now : Nat)
    (hp : parseToken draw = some (tid, tsec))
    (hl : lookupKey c.store (BootstrapTokenSecretName tid) = none) :
    createToken c draw now =
      (Except.ok draw,
       { store := setKey c.store (BootstrapTokenSecretName tid)
           (mkTokenSecret tid tsec now)
       , log := c.log ++ [StoreOp.createOp (BootstrapTokenSecretName tid)] }) := by
  simp [createToken, hp, Client.createSec, hl]

theorem createToken_ok_inv (c c' : Client) (draw tok : String) (now : Nat)
    (h : createToken c draw now = (Except.ok tok, c')) :
    ∃ tid tsec, parseToken draw = some (tid, tsec) ∧ tok = draw ∧
      lookupKey c.store (BootstrapTokenSecretName tid) = none ∧
      c' = { store := setKey c.store (BootstrapTokenSecretName tid)
               (mkTokenSecret tid tsec now)
           , log := c.log ++ [StoreOp.createOp (BootstrapTokenSecretName tid)] } := by
  cases hp : parseToken draw with
  | none =>
    rw [createToken_parse_none c draw now hp] at h
    simp at h
  | some p =>
    obtain ⟨tid, tsec⟩ := p
    cases hl : lookupKey c.store (BootstrapTokenSecretName tid) with
    | some r0 =>
      rw [createToken_conflict_eq c draw tid tsec now r0 hp hl] at h
      simp at h
    | none =>
      rw [createToken_ok_eq c draw tid tsec now hp hl] at h
      rw [Prod.mk.injEq] at h
      obtain ⟨h1, h2⟩ := h
      refine ⟨tid, tsec, rfl, ?_, hl, h2.symm⟩
      exact (Except.ok.inj h1).symm

theorem refreshToken_of_get_error (c : Client) (tok : String) (now : Nat)
    (e : TokenError)
    (h : (getToken c tok).1 = Except.error e) :
    refreshToken c tok now = (Except.error e, (getToken c tok).2) := by
  simp [refreshToken, h]

theorem refreshToken_found_eq (c : Client) (tok tid tsec : String) (sec : Secret)
    (d : List (String × FieldVal)) (now : Nat)
    (hp : parseToken tok = some (tid, tsec))
    (hl : lookupKey c.store (BootstrapTokenSecretName tid) = some sec)
    (hd : sec.data = some d)
    (hname : sec.name = BootstrapTokenSecretName tid) :
    refreshToken c tok now =
      (Except.ok (),
       { store := setKey c.store (BootstrapTokenSecretName tid)
           { name := BootstrapTokenSecretName tid
           , data := some (setKey d bootstrapTokenExpirationKey
               (FieldVal.time (now + DefaultTokenTTL))) }
       , log := c.log ++ [StoreOp.getOp (BootstrapTokenSecretName tid),
                          StoreOp.updateOp (BootstrapTokenSecretName tid)] }) := by
  have hg := getToken_found c tok tid tsec sec d hp hl hd
  simp [refreshToken, hg, Client.updateSec, hd, hname, hl]

theorem refreshToken_ok_inv (c c' : Client) (tok : String) (now : Nat)
    (hwf : storeWF c.store = true)
    (h : refreshToken c tok now = (Except.ok (), c')) :
    ∃ tid tsec sec d, parseToken tok = some (tid, tsec) ∧
      lookupKey c.store (BootstrapTokenSecretName tid) = some sec ∧
      sec.data = some d ∧ sec.name = BootstrapTokenSecretName tid ∧
      c'.store = setKey c.store (BootstrapTokenSecretName tid)
        { name := BootstrapTokenSecretName tid
        , data := some (setKey d bootstrapTokenExpirationKey
            (FieldVal.time (now + DefaultTokenTTL))) } := by
  cases hg : (getToken c tok).1 with
  | error e =>
    rw [refreshToken_of_get_error c tok now e hg] at h
    simp at h
  | ok sec =>
    obtain ⟨tid, tsec, d, hp, hl, hd⟩ := getToken_fst_ok c tok sec hg
    have hname := storeWF_lookup c.store _ sec hwf hl
    rw [refreshToken_found_eq c tok tid tsec sec d now hp hl hd hname] at h
    rw [Prod.mk.injEq] at h
    obtain ⟨h1, h2⟩ := h
    exact ⟨tid, tsec, sec, d, hp, hl, hd, hname, by rw [← h2]⟩

theorem parseTokenChars_some (cs i s : List Char)
    (h : parseTokenChars cs = some (i, s)) :
    i.length = 6 ∧ s.length = 16 ∧
    i.all isTokenChar = true ∧ s.all isTokenChar = true := by
  unfold parseTokenChars at h
  split at h
  · split at h
    · rename_i s0 heq hguard
      obtain ⟨hi, hs⟩ := Prod.mk.inj (Option.some.inj h)
      subst hi
      subst hs
      exact hguard
    · simp at h
  · simp at h

theorem parseToken_some_shape (t i s : String)
    (h : parseToken t = some (i, s)) :
    i.length = 6 ∧ s.length = 16 ∧
    i.data.all isTokenChar = true ∧ s.data.all isTokenChar = true := by
  unfold parseToken at h
  cases hc : parseTokenChars t.data with
  | none => rw [hc] at h; simp at h
  | some p =>
    obtain ⟨ic, sc⟩ := p
    rw [hc] at h
    simp at h
    obtain ⟨hi, hs⟩ := h
    subst hi
    subst hs
    exact parseTokenChars_some t.data ic sc hc

theorem parseExpiration_mkTokenSecret (tid tsec : String) (now : Nat) :
    parseExpiration (mkTokenSecret tid tsec now) = some (now + DefaultTokenTTL) := rfl

/-- Claim C2: for every input string that fails the bootstrap token grammar,
getToken returns the malformed-token error and performs no store access at
all: the client comes back unchanged, and in particular its call log gains
no Get entry. -/
theorem getToken_malformed_no_store_call (c : Client) (tok : String)
    (h : parseToken tok = none) :
    getToken c tok = (Except.error TokenError.malformed, c) ∧
    (getToken c tok).2.log = c.log := by
  have he := getToken_parse_none c tok h
  exact ⟨he, by rw [he]⟩

/-- Witness for claim C2 at the concrete malformed text badTok. -/
theorem getToken_malformed_no_store_call_witness :
    getToken freshClient badTok = (Except.error TokenError.malformed, freshClient) ∧
    (getToken freshClient badTok).2.log = freshClient.log :=
  getToken_malformed_no_store_call freshClient badTok (by rfl)

/-- Counterexample to claim C4 as stated: one single malformed random draw
already makes createToken fail with the generation error; there is no
local retry over multiple attempts anywhere in the function. -/
theorem createToken_single_bad_draw_fails_cex :
    parseToken badDraw = none ∧
    createToken freshClient badDraw 0 =
      (Except.error TokenError.generation, freshClient) :=
  ⟨rfl, rfl⟩

/-- Claim C4 (amended): createToken performs exactly one generation attempt;
when that single draw fails the grammar self-check, createToken returns the
generation error immediately, with the client left untouched. -/
theorem createToken_no_retry (c : Client) (draw : String) (now : Nat)
    (h : parseToken draw = none) :
    createToken c draw now = (Except.error TokenError.generation, c) :=
  createToken_parse_none c draw now h

/-- Witness for claim C4 (amended) at the concrete draw badDraw. -/
theorem createToken_no_retry_witness :
    createToken c1ex badDraw 5 = (Except.error TokenError.generation, c1ex) :=
  createToken_no_retry c1ex badDraw 5 (by rfl)

/-- Counterexample to claim C3 as stated: a store record that exists with a
non-nil data map but no expiration field is returned successfully by
getToken; the corrupt-record error is not raised there. -/
theorem getToken_missing_expiration_not_corrupt_cex :
    (getToken c3client exToken).1 = Except.ok c3secret ∧
    parseExpiration c3secret = none ∧
    ∀ e, (getToken c3client exToken).1 ≠ Except.error e := by
  refine ⟨rfl, rfl, fun e hcontra => ?_⟩
  have hok : (getToken c3client exToken).1 = Except.ok c3secret := rfl
  rw [hok] at hcontra
  exact Except.noConfusion hcontra

/-- Claim C3 (amended): getToken reports a corrupt record exactly when the
fetched record has a nil data map; a record with a non-nil data map is
returned successfully even when the expiration field is missing, and that
missing expiration instead surfaces as a corrupt-record error from
shouldRotate. -/
theorem getToken_corrupt_iff_nil_data (c : Client) (tok tid tsec : String)
    (sec : Secret)
    (hp : parseToken tok = some (tid, tsec))
    (hl : lookupKey c.store (BootstrapTokenSecretName tid) = some sec) :
    ((getToken c tok).1 = Except.error TokenError.corruptRecord ↔ sec.data = none) ∧
    (∀ d, sec.data = some d → (getToken c tok).1 = Except.ok sec) ∧
    (∀ now, sec.data ≠ none → parseExpiration sec = none →
      (shouldRotate c tok now).1 = Except.error TokenError.corruptRecord) := by
  refine ⟨⟨?_, ?_⟩, ?_, ?_⟩
  · intro h
    cases hd : sec.data with
    | none => rfl
    | some d =>
      rw [getToken_found c tok tid tsec sec d hp hl hd] at h
      simp at h
  · intro hd
    rw [getToken_data_none c tok tid tsec sec hp hl hd]
  · intro d hd
    rw [getToken_found c tok tid tsec sec d hp hl hd]
  · intro now hd hexp
    cases hdm : sec.data with
    | none => exact absurd hdm hd
    | some d =>
      have hg : (getToken c tok).1 = Except.ok sec := by
        rw [getToken_found c tok tid tsec sec d hp hl hdm]
      exact shouldRotate_of_no_expiration c tok sec now hg hexp

/-- Witness for claim C3 (amended) at the record missing its expiration. -/
theorem getToken_corrupt_iff_nil_data_witness :
    ((getToken c3client exToken).1 = Except.error TokenError.corruptRecord ↔
      c3secret.data = none) ∧
    (shouldRotate c3client exToken 0).1 = Except.error TokenError.corruptRecord := by
  have h := getToken_corrupt_iff_nil_data c3client exToken exID exSecret c3secret
    (by rfl) (by rfl)
  exact ⟨h.1, h.2.2 0 (by simp [c3secret]) rfl⟩

/-- Claim C9: when the id of the generated token already has a record in the
store, createToken fails with the conflict error, the store afterwards is
exactly the store before, and the key still holds the first record. -/
theorem createToken_conflict_preserves_store (c : Client) (draw tid tsec : String)
    (now : Nat) (r0 : Secret)
    (hp : parseToken draw = some (tid, tsec))
    (hl : lookupKey c.store (BootstrapTokenSecretName tid) = some r0) :
    (createToken c draw now).1 = Except.error TokenError.conflict ∧
    (createToken c draw now).2.store = c.store ∧
    lookupKey (createToken c draw now).2.store (BootstrapTokenSecretName tid) =
      some r0 := by
  rw [createToken_conflict_eq c draw tid tsec now r0 hp hl]
  exact ⟨rfl, rfl, hl⟩

/-- Witness for claim C9: creating exToken again over a store already
holding its record yields the conflict error and preserves the store. -/
theorem createToken_conflict_preserves_store_witness :
    (createToken c1ex exToken 5).1 = Except.error TokenError.conflict ∧
    (createToken c1ex exToken 5).2.store = c1ex.store ∧
    lookupKey (createToken c1ex exToken 5).2.store (BootstrapTokenSecretName exID) =
      some (mkTokenSecret exID exSecret 0) :=
  createToken_conflict_preserves_store c1ex exToken exID exSecret 5
    (mkTokenSecret exID exSecret 0) (by rfl) (by rfl)

/-- Claim C10: refreshToken is atomic on error: whenever the getToken step
fails, refreshToken returns that same error and the store state is exactly
what it was before the call. -/
theorem refreshToken_error_no_mutation (c : Client) (tok : String) (now : Nat)
    (e : TokenError)
    (h : (getToken c tok).1 = Except.error e) :
    (refreshToken c tok now).1 = Except.error e ∧
    (refreshToken c tok now).2.store = c.store := by
  rw [refreshToken_of_get_error c tok now e h]
  exact ⟨rfl, getToken_snd_store c tok⟩

/-- Witness for claim C10: refreshing a token whose record is absent fails
with the not-found error and leaves the empty store empty. -/
theorem refreshToken_error_no_mutation_witness :
    (refreshToken freshClient exToken 7).1 = Except.error TokenError.notFound ∧
    (refreshToken freshClient exToken 7).2.store = freshClient.store :=
  refreshToken_error_no_mutation freshClient exToken 7 TokenError.notFound (by rfl)

/-- Claim C1: for a token whose record exists with a parseable expiration e,
shouldRotate answers true exactly when e is strictly before
now + DefaultTokenTTL / 2; in particular it answers false at the very
moment of creation or refresh, and answers true at any instant strictly
past half of DefaultTokenTTL after creation or refresh. -/
theorem shouldRotate_iff_past_half_ttl :
    (∀ c tok sec e now, (getToken c tok).1 = Except.ok sec →
      parseExpiration sec = some e →
      ((shouldRotate c tok now).1 = Except.ok true ↔
        e < now + DefaultTokenTTL / 2)) ∧
    (∀ c draw tok c' t0, createToken c draw t0 = (Except.ok tok, c') →
      (shouldRotate c' tok t0).1 = Except.ok false ∧
      (∀ now, t0 + DefaultTokenTTL / 2 < now →
        (shouldRotate c' tok now).1 = Except.ok true)) ∧
    (∀ c tok c' t0, storeWF c.store = true →
      refreshToken c tok t0 = (Except.ok (), c') →
      (shouldRotate c' tok t0).1 = Except.ok false ∧
      (∀ now, t0 + DefaultTokenTTL / 2 < now →
        (shouldRotate c' tok now).1 = Except.ok true)) := by
  have hiff : ∀ c tok sec e now, (getToken c tok).1 = Except.ok sec →
      parseExpiration sec = some e →
      ((shouldRotate c tok now).1 = Except.ok true ↔
        e < now + DefaultTokenTTL / 2) := by
    intro c tok sec e now hget hexp
    rw [shouldRotate_of_ok c tok sec e now hget hexp]
    constructor
    · intro h
      exact of_decide_eq_true (Except.ok.inj h)
    · intro h
      rw [decide_eq_true h]
  refine ⟨hiff, ?_, ?_⟩
  · intro c draw tok c' t0 h
    obtain ⟨tid, tsec, hp, htok, hl, hc'⟩ := createToken_ok_inv c c' draw tok t0 h
    subst htok
    subst hc'
    have hl' : lookupKey
        (setKey c.store (BootstrapTokenSecretName tid) (mkTokenSecret tid tsec t0))
        (BootstrapTokenSecretName tid) = some (mkTokenSecret tid tsec t0) :=
      lookupKey_setKey_self ..
    have hget := getToken_found
      { store := setKey c.store (BootstrapTokenSecretName tid) (mkTokenSecret tid tsec t0)
      , log := c.log ++ [StoreOp.createOp (BootstrapTokenSecretName tid)] }
      tok tid tsec (mkTokenSecret tid tsec t0) _ hp hl' rfl
    have hget1 := congrArg Prod.fst hget
    have hexp := parseExpiration_mkTokenSecret tid tsec t0
    constructor
    · rw [shouldRotate_of_ok _ tok _ _ t0 hget1 hexp]
      have hnot : ¬ (t0 + DefaultTokenTTL < t0 + DefaultTokenTTL / 2) := by
        unfold DefaultTokenTTL
        omega
      rw [decide_eq_false hnot]
    · intro now hnow
      rw [shouldRotate_of_ok _ tok _ _ now hget1 hexp]
      have hlt : t0 + DefaultTokenTTL < now + DefaultTokenTTL / 2 := by
        unfold DefaultTokenTTL at hnow ⊢
        omega
      rw [decide_eq_true hlt]
  · intro c tok c' t0 hwf h
    obtain ⟨tid, tsec, sec, d, hp, hl, hd, hname, hstore⟩ :=
      refreshToken_ok_inv c c' tok t0 hwf h
    have hl' : lookupKey c'.store (BootstrapTokenSecretName tid) =
        some { name := BootstrapTokenSecretName tid
             , data := some (setKey d bootstrapTokenExpirationKey
                 (FieldVal.time (t0 + DefaultTokenTTL))) } := by
      rw [hstore]
      exact lookupKey_setKey_self ..
    have hget := getToken_found c' tok tid tsec _ _ hp hl' rfl
    have hget1 := congrArg Prod.fst hget
    have hexp : parseExpiration
        { name := BootstrapTokenSecretName tid
        , data := some (setKey d bootstrapTokenExpirationKey
            (FieldVal.time (t0 + DefaultTokenTTL))) } =
        some (t0 + DefaultTokenTTL) := by
      simp [parseExpiration, lookupKey_setKey_self]
    constructor
    · rw [shouldRotate_of_ok _ tok _ _ t0 hget1 hexp]
      have hnot : ¬ (t0 + DefaultTokenTTL < t0 + DefaultTokenTTL / 2) := by
        unfold DefaultTokenTTL
        omega
      rw [decide_eq_false hnot]
    · intro now hnow
      rw [shouldRotate_of_ok _ tok _ _ now hget1 hexp]
      have hlt : t0 + DefaultTokenTTL < now + DefaultTokenTTL / 2 := by
        unfold DefaultTokenTTL at hnow ⊢
        omega
      rw [decide_eq_true hlt]

/-- Witness for claim C1: concretely, right after creating exToken at time 0
rotation is not due, at time 451 (just past half of the 900-second TTL) it
is due, and right after refreshing at time 10 it is again not due. -/
theorem shouldRotate_iff_past_half_ttl_witness :
    (shouldRotate c1ex exToken 0).1 = Except.ok false ∧
    (shouldRotate c1ex exToken 451).1 = Except.ok true ∧
    (shouldRotate c2ex exToken 10).1 = Except.ok false := by
  have h2 := shouldRotate_iff_past_half_ttl.2.1 freshClient exToken exToken c1ex 0
    (by rfl)
  have h3 := shouldRotate_iff_past_half_ttl.2.2 c1ex exToken c2ex 10
    (by rfl) (by rfl)
  exact ⟨h2.1, h2.2 451 (by decide), h3.1⟩

/-- Claim C5: a successful refreshToken leaves the addressed record with
expiration now + DefaultTokenTTL, strictly later than any prior parseable
expiration whose implied issuance instant lay before now. -/
theorem refreshToken_sets_expiration (c c' : Client) (tok : String) (now : Nat)
    (hwf : storeWF c.store = true)
    (h : refreshToken c tok now = (Except.ok (), c')) :
    ∃ tid tsec sec sec',
      parseToken tok = some (tid, tsec) ∧
      lookupKey c.store (BootstrapTokenSecretName tid) = some sec ∧
      lookupKey c'.store (BootstrapTokenSecretName tid) = some sec' ∧
      parseExpiration sec' = some (now + DefaultTokenTTL) ∧
      (∀ e, parseExpiration sec = some e → e < now + DefaultTokenTTL →
        ∀ e', parseExpiration sec' = some e' → e < e') := by
  obtain ⟨tid, tsec, sec, d, hp, hl, hd, hname, hstore⟩ :=
    refreshToken_ok_inv c c' tok now hwf h
  have hexp : parseExpiration
      { name := BootstrapTokenSecretName tid
      , data := some (setKey d bootstrapTokenExpirationKey
          (FieldVal.time (now + DefaultTokenTTL))) } =
      some (now + DefaultTokenTTL) := by
    simp [parseExpiration, lookupKey_setKey_self]
  refine ⟨tid, tsec, sec, _, hp, hl, ?_, hexp, ?_⟩
  · rw [hstore]
    exact lookupKey_setKey_self ..
  · intro e he hlt e' he'
    rw [hexp] at he'
    obtain rfl := Option.some.inj he'
    exact hlt

/-- Witness for claim C5: refreshing exToken at time 10 over the store that
created it at time 0 stores expiration 10 + DefaultTokenTTL. -/
theorem refreshToken_sets_expiration_witness :
    ∃ tid tsec sec sec',
      parseToken exToken = some (tid, tsec) ∧
      lookupKey c1ex.store (BootstrapTokenSecretName tid) = some sec ∧
      lookupKey c2ex.store (BootstrapTokenSecretName tid) = some sec' ∧
      parseExpiration sec' = some (10 + DefaultTokenTTL) ∧
      (∀ e, parseExpiration sec = some e → e < 10 + DefaultTokenTTL →
        ∀ e', parseExpiration sec' = some e' → e < e') :=
  refreshToken_sets_expiration c1ex c2ex exToken 10 (by rfl) (by rfl)

/-- Claim C6: a successful createToken stores, under the key derived from
the token id alone, a record whose expiration is now + DefaultTokenTTL,
whose two usage flags grant signing and authentication, and which carries
the default group set and the fixed description tag. -/
theorem createToken_writes_record_fields (c c' : Client) (draw tok : String)
    (now : Nat)
    (h : createToken c draw now = (Except.ok tok, c')) :
    ∃ tid tsec sec d,
      parseToken tok = some (tid, tsec) ∧
      lookupKey c'.store (BootstrapTokenSecretName tid) = some sec ∧
      sec.name = BootstrapTokenSecretName tid ∧
      sec.data = some d ∧
      lookupKey d bootstrapTokenExpirationKey =
        some (FieldVal.time (now + DefaultTokenTTL)) ∧
      lookupKey d bootstrapTokenUsageSigningKey = some (FieldVal.bytes ("true")) ∧
      lookupKey d bootstrapTokenUsageAuthentication = some (FieldVal.bytes ("true")) ∧
      lookupKey d bootstrapTokenExtraGroupsKey =
        some (FieldVal.bytes ("system:bootstrappers:kubeadm:default-node-token")) ∧
      lookupKey d bootstrapTokenDescriptionKey =
        some (FieldVal.bytes ("token generated by cluster-api-bootstrap-provider-kubeadm")) := by
  obtain ⟨tid, tsec, hp, htok, hl, hc'⟩ := createToken_ok_inv c c' draw tok now h
  subst htok
  subst hc'
  exact ⟨tid, tsec, mkTokenSecret tid tsec now, _, hp,
    lookupKey_setKey_self .., rfl, rfl, rfl, rfl, rfl, rfl, rfl⟩

/-- Witness for claim C6 at the concrete creation of exToken at time 0. -/
theorem createToken_writes_record_fields_witness :
    ∃ tid tsec sec d,
      parseToken exToken = some (tid, tsec) ∧
      lookupKey c1ex.store (BootstrapTokenSecretName tid) = some sec ∧
      sec.name = BootstrapTokenSecretName tid ∧
      sec.data = some d ∧
      lookupKey d bootstrapTokenExpirationKey =
        some (FieldVal.time (0 + DefaultTokenTTL)) ∧
      lookupKey d bootstrapTokenUsageSigningKey = some (FieldVal.bytes ("true")) ∧
      lookupKey d bootstrapTokenUsageAuthentication = some (FieldVal.bytes ("true")) ∧
      lookupKey d bootstrapTokenExtraGroupsKey =
        some (FieldVal.bytes ("system:bootstrappers:kubeadm:default-node-token")) ∧
      lookupKey d bootstrapTokenDescriptionKey =
        some (FieldVal.bytes ("token generated by cluster-api-bootstrap-provider-kubeadm")) :=
  createToken_writes_record_fields freshClient c1ex exToken exToken 0 (by rfl)

/-- Claim C7: the token text a successful createToken returns matches the
grammar, with a six-character id and a sixteen-character secret over the
lowercase alphanumeric charset, and parsing that text recovers exactly the
id and secret persisted in the stored record. -/
theorem createToken_token_roundtrip (c c' : Client) (draw tok : String)
    (now : Nat)
    (h : createToken c draw now = (Except.ok tok, c')) :
    ∃ tid tsec,
      parseToken tok = some (tid, tsec) ∧
      tid.length = 6 ∧ tsec.length = 16 ∧
      tid.data.all isTokenChar = true ∧ tsec.data.all isTokenChar = true ∧
      ∃ sec d, lookupKey c'.store (BootstrapTokenSecretName tid) = some sec ∧
        sec.data = some d ∧
        lookupKey d bootstrapTokenIDKey = some (FieldVal.bytes tid) ∧
        lookupKey d bootstrapTokenSecretKey = some (FieldVal.bytes tsec) := by
  obtain ⟨tid, tsec, hp, htok, hl, hc'⟩ := createToken_ok_inv c c' draw tok now h
  subst htok
  subst hc'
  obtain ⟨h6, h16, hic, hsc⟩ := parseToken_some_shape tok tid tsec hp
  exact ⟨tid, tsec, hp, h6, h16, hic, hsc, mkTokenSecret tid tsec now, _,
    lookupKey_setKey_self .., rfl, rfl, rfl⟩

/-- Witness for claim C7 at the concrete creation of exToken at time 0. -/
theorem createToken_token_roundtrip_witness :
    ∃ tid tsec,
      parseToken exToken = some (tid, tsec) ∧
      tid.length = 6 ∧ tsec.length = 16 ∧
      tid.data.all isTokenChar = true ∧ tsec.data.all isTokenChar = true ∧
      ∃ sec d, lookupKey c1ex.store (BootstrapTokenSecretName tid) = some sec ∧
        sec.data = some d ∧
        lookupKey d bootstrapTokenIDKey = some (FieldVal.bytes tid) ∧
        lookupKey d bootstrapTokenSecretKey = some (FieldVal.bytes tsec) :=
  createToken_token_roundtrip freshClient c1ex exToken exToken 0 (by rfl)

/-- Claim C8: getToken and shouldRotate leave the store unchanged and add
only read operations to the call log, while a successful refreshToken
rewrites only the expiration field of the one addressed record: its other
fields, and every record under any other key, are unchanged. -/
theorem lifecycle_frame_conditions :
    (∀ c tok, (getToken c tok).2.store = c.store ∧
      ∀ op, op ∈ (getToken c tok).2.log → op ∈ c.log ∨ op.isRead = true) ∧
    (∀ c tok now, (shouldRotate c tok now).2.store = c.store ∧
      ∀ op, op ∈ (shouldRotate c tok now).2.log → op ∈ c.log ∨ op.isRead = true) ∧
    (∀ c c' tok now, storeWF c.store = true →
      refreshToken c tok now = (Except.ok (), c') →
      ∃ tid tsec sec d,
        parseToken tok = some (tid, tsec) ∧
        lookupKey c.store (BootstrapTokenSecretName tid) = some sec ∧
        sec.data = some d ∧
        (∀ k, k ≠ BootstrapTokenSecretName tid →
          lookupKey c'.store k = lookupKey c.store k) ∧
        ∃ sec' d', lookupKey c'.store (BootstrapTokenSecretName tid) = some sec' ∧
          sec'.name = sec.name ∧ sec'.data = some d' ∧
          (∀ fk, fk ≠ bootstrapTokenExpirationKey →
            lookupKey d' fk = lookupKey d fk) ∧
          lookupKey d' bootstrapTokenExpirationKey =
            some (FieldVal.time (now + DefaultTokenTTL))) := by
  have hget : ∀ c tok, (getToken c tok).2.store = c.store ∧
      ∀ op, op ∈ (getToken c tok).2.log → op ∈ c.log ∨ op.isRead = true := by
    intro c tok
    rcases getToken_snd c tok with h | ⟨k, h⟩
    · rw [h]
      exact ⟨rfl, fun op hop => Or.inl hop⟩
    · rw [h]
      refine ⟨rfl, fun op hop => ?_⟩
      rcases List.mem_append.mp hop with hin | hin
      · exact Or.inl hin
      · right
        obtain rfl := List.mem_singleton.mp hin
        rfl
  refine ⟨hget, ?_, ?_⟩
  · intro c tok now
    rw [shouldRotate_snd c tok now]
    exact hget c tok
  · intro c c' tok now hwf h
    obtain ⟨tid, tsec, sec, d, hp, hl, hd, hname, hstore⟩ :=
      refreshToken_ok_inv c c' tok now hwf h
    refine ⟨tid, tsec, sec, d, hp, hl, hd, ?_, ?_⟩
    · intro k hk
      rw [hstore]
      exact lookupKey_setKey_ne _ _ _ _ hk
    · refine ⟨{ name := BootstrapTokenSecretName tid
              , data := some (setKey d bootstrapTokenExpirationKey
                  (FieldVal.time (now + DefaultTokenTTL))) },
        setKey d bootstrapTokenExpirationKey (FieldVal.time (now + DefaultTokenTTL)),
        ?_, hname.symm, rfl, ?_, lookupKey_setKey_self ..⟩
      · rw [hstore]
        exact lookupKey_setKey_self ..
      · intro fk hfk
        exact lookupKey_setKey_ne _ _ _ _ hfk

/-- Witness for claim C8 at the concrete refresh of exToken at time 10. -/
theorem lifecycle_frame_conditions_witness :
    (getToken c1ex exToken).2.store = c1ex.store ∧
    (shouldRotate c1ex exToken 0).2.store = c1ex.store ∧
    ∃ tid tsec sec d,
      parseToken exToken = some (tid, tsec) ∧
      lookupKey c1ex.store (BootstrapTokenSecretName tid) = some sec ∧
      sec.data = some d ∧
      (∀ k, k ≠ BootstrapTokenSecretName tid →
        lookupKey c2ex.store k = lookupKey c1ex.store k) ∧
      ∃ sec' d', lookupKey c2ex.store (BootstrapTokenSecretName tid) = some sec' ∧
        sec'.name = sec.name ∧ sec'.data = some d' ∧
        (∀ fk, fk ≠ bootstrapTokenExpirationKey →
          lookupKey d' fk = lookupKey d fk) ∧
        lookupKey d' bootstrapTokenExpirationKey =
          some (FieldVal.time (10 + DefaultTokenTTL)) :=
  ⟨(lifecycle_frame_conditions.1 c1ex exToken).1,
   (lifecycle_frame_conditions.2.1 c1ex exToken 0).1,
   lifecycle_frame_conditions.2.2 c1ex c2ex exToken 10 (by rfl) (by rfl)⟩

end KubeadmToken
